import Mathlib

set_option maxHeartbeats 1000000

/-!
Shallow embedding of the two web-service adapter classes of
`tools-webservice` (`toolsws/wstypes/python.py` and
`toolsws/wstypes/uwsgi.py`), together with proofs of the specification
claims about them.

The filesystem is modelled as a predicate on path strings (`os.path.exists`),
exceptions as an `Except` result, and the subprocess launch as the returned
`SubprocessCall` value (argv plus the three standard-stream dispositions).
-/

/-- The filesystem state, as seen through `os.path.exists`: a path is mapped
to `true` iff it exists. -/
def FS : Type := String → Bool

/-- The slice of the `Tool` object used by the code: its name and its home
directory. -/
structure Tool where
  name : String
  home : String
deriving DecidableEq

/-- Modelled from the spec: `Tool.get_homedir_subpath` (defined outside the
provided sources) resolves a relative path against the tool's home directory;
the spec and the code refer to the results as `~/www/python/src`,
`~/uwsgi.ini`, and so on, i.e. `<home>/<subpath>`. -/
def Tool.get_homedir_subpath (t : Tool) (sub : String) : String :=
  t.home ++ "/" ++ sub

/-- The exception type raised by the checks: `WebService.InvalidWebServiceException`
carrying its message. -/
inductive WebServiceError where
  | InvalidWebServiceException (msg : String)
deriving DecidableEq

/-- Disposition of one standard stream of a launched subprocess. The source
passes `sys.stdin` / `sys.stdout` / `sys.stderr`, i.e. the launching process's
own streams (`inherited`); redirection to a file or pipe would be `redirected`. -/
inductive StreamTarget where
  | inherited
  | redirected (target : String)
deriving DecidableEq

/-- A subprocess invocation as performed by `subprocess.check_call`: the argv
list and the three standard-stream dispositions. -/
structure SubprocessCall where
  argv : List String
  stdin : StreamTarget
  stdout : StreamTarget
  stderr : StreamTarget
deriving DecidableEq

/-- The message of `PythonWebService.check`'s exception (the two adjacent
Python string literals concatenated). -/
def PythonWebService.checkMessage : String :=
  "Could not find ~/www/python/src. Are you sure you have a proper uwsgi application in ~/www/python/src?"

/-- `PythonWebService.check(self, wstype)`: raise iff `<home>/www/python/src`
does not exist. The `wstype` argument is accepted (at any type) and unused,
exactly as in the source. -/
def PythonWebService.check {α : Type} (fs : FS) (t : Tool) (_wstype : α) :
    Except WebServiceError Unit :=
  let src_path := t.get_homedir_subpath "www/python/src"
  if !(fs src_path) then
    .error (.InvalidWebServiceException PythonWebService.checkMessage)
  else
    .ok ()

/-- The initial `command` list literal of `PythonWebService.run`, before the
two conditional `+=` extensions. -/
def PythonWebService.baseCommand (t : Tool) (port : Int) : List String :=
  ["/usr/bin/uwsgi",
   "--plugin",
   "python,python3",
   "--http-socket",
   ":" ++ toString port,
   "--chdir",
   t.get_homedir_subpath "www/python/src",
   "--logto",
   t.get_homedir_subpath "uwsgi.log",
   "--callable",
   "app",
   "--manage-script-name",
   "--workers",
   "4",
   "--mount",
   "/" ++ t.name ++ "=" ++ t.get_homedir_subpath "www/python/src/app.py",
   "--die-on-term",
   "--strict",
   "--master"]

/-- The full `command` of `PythonWebService.run`: the base list, extended by
`["--venv", <home>/www/python/venv]` when that path exists, then by
`["--ini", <home>/www/python/uwsgi.ini]` when that path exists. -/
def PythonWebService.command (fs : FS) (t : Tool) (port : Int) : List String :=
  (PythonWebService.baseCommand t port ++
    (if fs (t.get_homedir_subpath "www/python/venv") then
      ["--venv", t.get_homedir_subpath "www/python/venv"]
    else [])) ++
    (if fs (t.get_homedir_subpath "www/python/uwsgi.ini") then
      ["--ini", t.get_homedir_subpath "www/python/uwsgi.ini"]
    else [])

/-- `PythonWebService.run(self, port)`. The call `super().run(port)` is
modelled from the spec: the `WebService` base class (its `run` is outside the
provided sources) performs "a single existence check raising a descriptive
error before launch", i.e. it invokes the subclass `check`; on success the
command is built and handed to `subprocess.check_call` with
`stdin=sys.stdin, stdout=sys.stdout, stderr=sys.stderr`. -/
def PythonWebService.run (fs : FS) (t : Tool) (port : Int) :
    Except WebServiceError SubprocessCall :=
  match PythonWebService.check fs t () with
  | .error e => .error e
  | .ok () =>
    .ok { argv := PythonWebService.command fs t port,
          stdin := .inherited, stdout := .inherited, stderr := .inherited }

/-- The message of `UwsgiWebService.check`'s exception. -/
def UwsgiWebService.checkMessage : String :=
  "Could not find ~/uwsgi.ini. Are you sure you have a proper uwsgi config setup in ~/uwsgi.ini?"

/-- `UwsgiWebService.check(self, wstype)`: raise iff `<home>/uwsgi.ini` does
not exist. The `wstype` argument is accepted (at any type) and unused. -/
def UwsgiWebService.check {α : Type} (fs : FS) (t : Tool) (_wstype : α) :
    Except WebServiceError Unit :=
  let src_path := t.get_homedir_subpath "uwsgi.ini"
  if !(fs src_path) then
    .error (.InvalidWebServiceException UwsgiWebService.checkMessage)
  else
    .ok ()

/-- The fixed `command` list of `UwsgiWebService.run`: it depends only on the
port and the tool's home directory. -/
def UwsgiWebService.command (t : Tool) (port : Int) : List String :=
  ["/usr/bin/uwsgi",
   "--http-socket",
   ":" ++ toString port,
   "--logto",
   t.get_homedir_subpath "uwsgi.log",
   "--ini",
   t.get_homedir_subpath "uwsgi.ini",
   "--workers",
   "4",
   "--die-on-term",
   "--strict",
   "--master"]

/-- `UwsgiWebService.run(self, port)`. As for the Python variant,
`super().run(port)` is modelled from the spec as performing the subclass
existence check before launch. -/
def UwsgiWebService.run (fs : FS) (t : Tool) (port : Int) :
    Except WebServiceError SubprocessCall :=
  match UwsgiWebService.check fs t () with
  | .error e => .error e
  | .ok () =>
    .ok { argv := UwsgiWebService.command t port,
          stdin := .inherited, stdout := .inherited, stderr := .inherited }

/-- `s` contains `pat` as a substring. -/
def containsSubstring (s pat : String) : Prop :=
  ∃ a b, s = a ++ pat ++ b

/- Fixtures for witnesses. -/

/-- A filesystem on which every path exists. -/
def fsAll : FS := fun _ => true

/-- A filesystem on which no path exists. -/
def fsNone : FS := fun _ => false

/-- A concrete tool fixture. -/
def t0 : Tool := { name := "mytool", home := "/data/project/mytool" }

/- Helper lemmas about strings. -/

/-- Two strings differ when a character occurs in one and not the other. -/
theorem ne_of_char_mem_not_mem {c : Char} {s pat : String}
    (h1 : c ∈ s.data) (h2 : c ∉ pat.data) : s ≠ pat :=
  fun h => h2 (h ▸ h1)

/-- A character of the right part occurs in an appended string. -/
theorem char_mem_append_right {c : Char} (a : String) {b : String}
    (h : c ∈ b.data) : c ∈ (a ++ b).data := by
  rw [String.data_append]; exact List.mem_append_right _ h

/-- A character of the left part occurs in an appended string. -/
theorem char_mem_append_left {c : Char} {a : String} (b : String)
    (h : c ∈ a.data) : c ∈ (a ++ b).data := by
  rw [String.data_append]; exact List.mem_append_left _ h

/-- Every home-relative path produced by `get_homedir_subpath` contains a
slash. -/
theorem slash_mem_get_homedir_subpath (t : Tool) (sub : String) :
    '/' ∈ (t.get_homedir_subpath sub).data := by
  unfold Tool.get_homedir_subpath
  exact char_mem_append_left _ (char_mem_append_right _ (by decide))

/- Characterizations of the two `run` operations. -/

/-- `PythonWebService.run` succeeds exactly when `<home>/www/python/src`
exists, and then launches the built command with inherited streams. -/
theorem python_run_ok_iff (fs : FS) (t : Tool) (port : Int)
    (c : SubprocessCall) :
    PythonWebService.run fs t port = .ok c ↔
      fs (t.get_homedir_subpath "www/python/src") = true ∧
      c = { argv := PythonWebService.command fs t port,
            stdin := .inherited, stdout := .inherited, stderr := .inherited } := by
  unfold PythonWebService.run PythonWebService.check
  cases h : fs (t.get_homedir_subpath "www/python/src") <;>
    simp [h, eq_comm]

/-- `PythonWebService.run` fails with the descriptive exception when
`<home>/www/python/src` is missing. -/
theorem python_run_error_of_missing (fs : FS) (t : Tool) (port : Int)
    (h : fs (t.get_homedir_subpath "www/python/src") = false) :
    PythonWebService.run fs t port =
      .error (.InvalidWebServiceException PythonWebService.checkMessage) := by
  unfold PythonWebService.run PythonWebService.check
  simp [h]

/-- `UwsgiWebService.run` succeeds exactly when `<home>/uwsgi.ini` exists,
and then launches the fixed command with inherited streams. -/
theorem uwsgi_run_ok_iff (fs : FS) (t : Tool) (port : Int)
    (c : SubprocessCall) :
    UwsgiWebService.run fs t port = .ok c ↔
      fs (t.get_homedir_subpath "uwsgi.ini") = true ∧
      c = { argv := UwsgiWebService.command t port,
            stdin := .inherited, stdout := .inherited, stderr := .inherited } := by
  unfold UwsgiWebService.run UwsgiWebService.check
  cases h : fs (t.get_homedir_subpath "uwsgi.ini") <;>
    simp [h, eq_comm]

/-- `UwsgiWebService.run` fails with the descriptive exception when
`<home>/uwsgi.ini` is missing. -/
theorem uwsgi_run_error_of_missing (fs : FS) (t : Tool) (port : Int)
    (h : fs (t.get_homedir_subpath "uwsgi.ini") = false) :
    UwsgiWebService.run fs t port =
      .error (.InvalidWebServiceException UwsgiWebService.checkMessage) := by
  unfold UwsgiWebService.run UwsgiWebService.check
  simp [h]

/-- C3: `PythonWebService.check` raises `InvalidWebServiceException` if and
only if `<home>/www/python/src` does not exist, and returns normally (with no
other effect) when it exists. -/
theorem c3_python_check_raises_iff_src_missing :
    ∀ (fs : FS) (t : Tool) (α : Type) (w : α),
      PythonWebService.check fs t w =
        if fs (t.get_homedir_subpath "www/python/src") then Except.ok ()
        else Except.error
          (.InvalidWebServiceException PythonWebService.checkMessage) := by
  intro fs t α w
  unfold PythonWebService.check
  cases h : fs (t.get_homedir_subpath "www/python/src") <;> simp [h]

/-- C4: `UwsgiWebService.check` raises `InvalidWebServiceException` if and
only if `<home>/uwsgi.ini` does not exist, and returns normally when it
exists. -/
theorem c4_uwsgi_check_raises_iff_ini_missing :
    ∀ (fs : FS) (t : Tool) (α : Type) (w : α),
      UwsgiWebService.check fs t w =
        if fs (t.get_homedir_subpath "uwsgi.ini") then Except.ok ()
        else Except.error
          (.InvalidWebServiceException UwsgiWebService.checkMessage) := by
  intro fs t α w
  unfold UwsgiWebService.check
  cases h : fs (t.get_homedir_subpath "uwsgi.ini") <;> simp [h]

/-- C9: the `wstype` argument has no influence on either `check`: for any two
values (of any types), the raise-or-return outcome and exception message are
identical. -/
theorem c9_check_ignores_wstype :
    ∀ (fs : FS) (t : Tool) (α β : Type) (w1 : α) (w2 : β),
      PythonWebService.check fs t w1 = PythonWebService.check fs t w2 ∧
      UwsgiWebService.check fs t w1 = UwsgiWebService.check fs t w2 :=
  fun _ _ _ _ _ _ => ⟨rfl, rfl⟩

/-- C2: when the required config path is missing, the descriptive
`InvalidWebServiceException` is raised and the subprocess launch step is
never reached (the run result is an error, never a `SubprocessCall`). -/
theorem c2_missing_path_blocks_launch :
    ∀ (fs : FS) (t : Tool) (port : Int),
      (fs (t.get_homedir_subpath "www/python/src") = false →
        PythonWebService.run fs t port =
          .error (.InvalidWebServiceException PythonWebService.checkMessage)) ∧
      (fs (t.get_homedir_subpath "uwsgi.ini") = false →
        UwsgiWebService.run fs t port =
          .error (.InvalidWebServiceException UwsgiWebService.checkMessage)) :=
  fun fs t port =>
    ⟨fun h => python_run_error_of_missing fs t port h,
     fun h => uwsgi_run_error_of_missing fs t port h⟩

/-- Witness for C2 at a concrete empty filesystem and tool. -/
theorem c2_missing_path_blocks_launch_witness :
    PythonWebService.run fsNone t0 8000 =
      .error (.InvalidWebServiceException PythonWebService.checkMessage) ∧
    UwsgiWebService.run fsNone t0 8000 =
      .error (.InvalidWebServiceException UwsgiWebService.checkMessage) :=
  ⟨(c2_missing_path_blocks_launch fsNone t0 8000).1 rfl,
   (c2_missing_path_blocks_launch fsNone t0 8000).2 rfl⟩

/-- C5: every successful `UwsgiWebService.run` launches exactly the fixed
command line determined solely by the port and the tool's home directory. -/
theorem c5_uwsgi_fixed_command :
    ∀ (fs : FS) (t : Tool) (port : Int) (c : SubprocessCall),
      UwsgiWebService.run fs t port = .ok c →
      c.argv =
        ["/usr/bin/uwsgi",
         "--http-socket", ":" ++ toString port,
         "--logto", t.get_homedir_subpath "uwsgi.log",
         "--ini", t.get_homedir_subpath "uwsgi.ini",
         "--workers", "4",
         "--die-on-term", "--strict", "--master"] := by
  intro fs t port c h
  rcases (uwsgi_run_ok_iff fs t port c).1 h with ⟨-, rfl⟩
  rfl

/-- Witness for C5 at a concrete filesystem, tool and port. -/
theorem c5_uwsgi_fixed_command_witness :
    (SubprocessCall.mk (UwsgiWebService.command t0 8000)
        .inherited .inherited .inherited).argv =
      ["/usr/bin/uwsgi",
       "--http-socket", ":" ++ toString (8000 : Int),
       "--logto", t0.get_homedir_subpath "uwsgi.log",
       "--ini", t0.get_homedir_subpath "uwsgi.ini",
       "--workers", "4",
       "--die-on-term", "--strict", "--master"] :=
  c5_uwsgi_fixed_command fsAll t0 8000
    (SubprocessCall.mk (UwsgiWebService.command t0 8000)
      .inherited .inherited .inherited) rfl

/-- C8: every execution of either `run` that reaches the launch step invokes
the binary with the launching process's own standard streams. -/
theorem c8_inherited_standard_streams :
    ∀ (fs : FS) (t : Tool) (port : Int) (c : SubprocessCall),
      (PythonWebService.run fs t port = .ok c →
        c.stdin = .inherited ∧ c.stdout = .inherited ∧ c.stderr = .inherited) ∧
      (UwsgiWebService.run fs t port = .ok c →
        c.stdin = .inherited ∧ c.stdout = .inherited ∧ c.stderr = .inherited) := by
  intro fs t port c
  constructor
  · intro h
    rcases (python_run_ok_iff fs t port c).1 h with ⟨-, rfl⟩
    exact ⟨rfl, rfl, rfl⟩
  · intro h
    rcases (uwsgi_run_ok_iff fs t port c).1 h with ⟨-, rfl⟩
    exact ⟨rfl, rfl, rfl⟩

/-- Witness for C8 at a concrete filesystem, tool and port. -/
theorem c8_inherited_standard_streams_witness :
    (SubprocessCall.mk (PythonWebService.command fsAll t0 8000)
        .inherited .inherited .inherited).stdin = .inherited ∧
    (SubprocessCall.mk (PythonWebService.command fsAll t0 8000)
        .inherited .inherited .inherited).stdout = .inherited ∧
    (SubprocessCall.mk (PythonWebService.command fsAll t0 8000)
        .inherited .inherited .inherited).stderr = .inherited :=
  (c8_inherited_standard_streams fsAll t0 8000
    (SubprocessCall.mk (PythonWebService.command fsAll t0 8000)
      .inherited .inherited .inherited)).1 rfl

/- Non-membership of the conditional flag strings in the rest of the Python
command: every other element is either a distinct literal or contains a
character ('/' or ':') that the flag strings do not contain. -/

/-- `"--ini"` is not an element of the initial Python command list. -/
theorem ini_not_mem_baseCommand (t : Tool) (port : Int) :
    "--ini" ∉ PythonWebService.baseCommand t port := by
  intro h
  simp only [PythonWebService.baseCommand, List.mem_cons, List.not_mem_nil,
    or_false] at h
  rcases h with h|h|h|h|h|h|h|h|h|h|h|h|h|h|h|h|h|h|h <;>
    first
      | exact absurd h (by decide)
      | exact ne_of_char_mem_not_mem (slash_mem_get_homedir_subpath t _)
          (by decide) h.symm
      | exact ne_of_char_mem_not_mem
          (char_mem_append_left _ (by decide : (':' : Char) ∈ ":".data))
          (by decide) h.symm
      | exact ne_of_char_mem_not_mem
          (char_mem_append_right _ (slash_mem_get_homedir_subpath t _))
          (by decide) h.symm

/-- `"--venv"` is not an element of the initial Python command list. -/
theorem venv_not_mem_baseCommand (t : Tool) (port : Int) :
    "--venv" ∉ PythonWebService.baseCommand t port := by
  intro h
  simp only [PythonWebService.baseCommand, List.mem_cons, List.not_mem_nil,
    or_false] at h
  rcases h with h|h|h|h|h|h|h|h|h|h|h|h|h|h|h|h|h|h|h <;>
    first
      | exact absurd h (by decide)
      | exact ne_of_char_mem_not_mem (slash_mem_get_homedir_subpath t _)
          (by decide) h.symm
      | exact ne_of_char_mem_not_mem
          (char_mem_append_left _ (by decide : (':' : Char) ∈ ":".data))
          (by decide) h.symm
      | exact ne_of_char_mem_not_mem
          (char_mem_append_right _ (slash_mem_get_homedir_subpath t _))
          (by decide) h.symm

/-- `"--ini"` does not occur before the conditional ini extension of the
Python command. -/
theorem ini_not_mem_python_front (fs : FS) (t : Tool) (port : Int) :
    "--ini" ∉ PythonWebService.baseCommand t port ++
      (if fs (t.get_homedir_subpath "www/python/venv") then
        ["--venv", t.get_homedir_subpath "www/python/venv"]
      else []) := by
  intro h
  rcases List.mem_append.1 h with h | h
  · exact ini_not_mem_baseCommand t port h
  · split at h
    · rcases List.mem_cons.1 h with h | h
      · exact absurd h (by decide)
      · rcases List.mem_cons.1 h with h | h
        · exact ne_of_char_mem_not_mem (slash_mem_get_homedir_subpath t _)
            (by decide) h.symm
        · simp at h
    · simp at h

/-- `"--venv"` does not occur in the conditional ini extension of the Python
command. -/
theorem venv_not_mem_ini_extension (fs : FS) (t : Tool) :
    "--venv" ∉ (if fs (t.get_homedir_subpath "www/python/uwsgi.ini") then
        ["--ini", t.get_homedir_subpath "www/python/uwsgi.ini"]
      else ([] : List String)) := by
  intro h
  split at h
  · rcases List.mem_cons.1 h with h | h
    · exact absurd h (by decide)
    · rcases List.mem_cons.1 h with h | h
      · exact ne_of_char_mem_not_mem (slash_mem_get_homedir_subpath t _)
          (by decide) h.symm
      · simp at h
  · simp at h

/- Shape of the Python command under each filesystem condition. -/

/-- When `<home>/www/python/uwsgi.ini` is absent the Python command is the
base list plus at most the venv pair. -/
theorem python_command_of_ini_missing (fs : FS) (t : Tool) (port : Int)
    (hb : fs (t.get_homedir_subpath "www/python/uwsgi.ini") = false) :
    PythonWebService.command fs t port =
      PythonWebService.baseCommand t port ++
        (if fs (t.get_homedir_subpath "www/python/venv") then
          ["--venv", t.get_homedir_subpath "www/python/venv"]
        else []) := by
  unfold PythonWebService.command
  rw [hb]
  simp

/-- When `<home>/www/python/uwsgi.ini` is present the Python command ends in
the ini pair. -/
theorem python_command_of_ini_present (fs : FS) (t : Tool) (port : Int)
    (hb : fs (t.get_homedir_subpath "www/python/uwsgi.ini") = true) :
    PythonWebService.command fs t port =
      (PythonWebService.baseCommand t port ++
        (if fs (t.get_homedir_subpath "www/python/venv") then
          ["--venv", t.get_homedir_subpath "www/python/venv"]
        else [])) ++
        ["--ini", t.get_homedir_subpath "www/python/uwsgi.ini"] := by
  unfold PythonWebService.command
  rw [hb]
  simp

/-- When `<home>/www/python/venv` is absent the Python command is the base
list plus at most the ini pair. -/
theorem python_command_of_venv_missing (fs : FS) (t : Tool) (port : Int)
    (hb : fs (t.get_homedir_subpath "www/python/venv") = false) :
    PythonWebService.command fs t port =
      PythonWebService.baseCommand t port ++
        (if fs (t.get_homedir_subpath "www/python/uwsgi.ini") then
          ["--ini", t.get_homedir_subpath "www/python/uwsgi.ini"]
        else []) := by
  unfold PythonWebService.command
  rw [hb]
  simp

/-- When `<home>/www/python/venv` is present the venv pair follows the base
list directly. -/
theorem python_command_of_venv_present (fs : FS) (t : Tool) (port : Int)
    (hb : fs (t.get_homedir_subpath "www/python/venv") = true) :
    PythonWebService.command fs t port =
      (PythonWebService.baseCommand t port ++
        ["--venv", t.get_homedir_subpath "www/python/venv"]) ++
        (if fs (t.get_homedir_subpath "www/python/uwsgi.ini") then
          ["--ini", t.get_homedir_subpath "www/python/uwsgi.ini"]
        else []) := by
  unfold PythonWebService.command
  rw [hb]
  simp

/-- C1: the command launched by a run operation includes the pair
`("--ini", <ini path>)` iff the tool's uwsgi ini file exists:
`<home>/www/python/uwsgi.ini` for `PythonWebService.run` and
`<home>/uwsgi.ini` for `UwsgiWebService.run`. -/
theorem c1_ini_flag_iff_ini_file_exists :
    ∀ (fs : FS) (t : Tool) (port : Int) (c : SubprocessCall),
      (PythonWebService.run fs t port = .ok c →
        (["--ini", t.get_homedir_subpath "www/python/uwsgi.ini"] <:+: c.argv ↔
          fs (t.get_homedir_subpath "www/python/uwsgi.ini") = true)) ∧
      (UwsgiWebService.run fs t port = .ok c →
        (["--ini", t.get_homedir_subpath "uwsgi.ini"] <:+: c.argv ↔
          fs (t.get_homedir_subpath "uwsgi.ini") = true)) := by
  intro fs t port c
  constructor
  · intro h
    rcases (python_run_ok_iff fs t port c).1 h with ⟨-, rfl⟩
    dsimp only
    constructor
    · intro hinf
      cases hb : fs (t.get_homedir_subpath "www/python/uwsgi.ini") with
      | true => rfl
      | false =>
        exfalso
        have hmem : "--ini" ∈ PythonWebService.command fs t port :=
          hinf.subset (List.mem_cons_self _ _)
        rw [python_command_of_ini_missing fs t port hb] at hmem
        exact ini_not_mem_python_front fs t port hmem
    · intro hb
      rw [python_command_of_ini_present fs t port hb]
      exact (List.suffix_append _ _).isInfix
  · intro h
    rcases (uwsgi_run_ok_iff fs t port c).1 h with ⟨hini, rfl⟩
    dsimp only
    constructor
    · intro _
      exact hini
    · intro _
      exact ⟨["/usr/bin/uwsgi", "--http-socket", ":" ++ toString port,
        "--logto", t.get_homedir_subpath "uwsgi.log"],
        ["--workers", "4", "--die-on-term", "--strict", "--master"], rfl⟩

/-- Witness for C1 at a concrete filesystem on which every path exists. -/
theorem c1_ini_flag_iff_ini_file_exists_witness :
    (["--ini", t0.get_homedir_subpath "www/python/uwsgi.ini"] <:+:
        (SubprocessCall.mk (PythonWebService.command fsAll t0 7)
          .inherited .inherited .inherited).argv ↔
      fsAll (t0.get_homedir_subpath "www/python/uwsgi.ini") = true) ∧
    (["--ini", t0.get_homedir_subpath "uwsgi.ini"] <:+:
        (SubprocessCall.mk (UwsgiWebService.command t0 7)
          .inherited .inherited .inherited).argv ↔
      fsAll (t0.get_homedir_subpath "uwsgi.ini") = true) :=
  ⟨(c1_ini_flag_iff_ini_file_exists fsAll t0 7
      (SubprocessCall.mk (PythonWebService.command fsAll t0 7)
        .inherited .inherited .inherited)).1 rfl,
   (c1_ini_flag_iff_ini_file_exists fsAll t0 7
      (SubprocessCall.mk (UwsgiWebService.command t0 7)
        .inherited .inherited .inherited)).2 rfl⟩

/-- C6: the Python command contains the pair `("--venv", <home>/www/python/venv)`
iff that path exists, and the conditional pairs are appended after the fixed
flags, the venv pair before the ini pair. -/
theorem c6_venv_flag_iff_and_ordering :
    ∀ (fs : FS) (t : Tool) (port : Int) (c : SubprocessCall),
      PythonWebService.run fs t port = .ok c →
        ((["--venv", t.get_homedir_subpath "www/python/venv"] <:+: c.argv ↔
            fs (t.get_homedir_subpath "www/python/venv") = true) ∧
          c.argv =
            (PythonWebService.baseCommand t port ++
              (if fs (t.get_homedir_subpath "www/python/venv") then
                ["--venv", t.get_homedir_subpath "www/python/venv"]
              else [])) ++
              (if fs (t.get_homedir_subpath "www/python/uwsgi.ini") then
                ["--ini", t.get_homedir_subpath "www/python/uwsgi.ini"]
              else [])) := by
  intro fs t port c h
  rcases (python_run_ok_iff fs t port c).1 h with ⟨-, rfl⟩
  dsimp only
  constructor
  · constructor
    · intro hinf
      cases hb : fs (t.get_homedir_subpath "www/python/venv") with
      | true => rfl
      | false =>
        exfalso
        have hmem : "--venv" ∈ PythonWebService.command fs t port :=
          hinf.subset (List.mem_cons_self _ _)
        rw [python_command_of_venv_missing fs t port hb] at hmem
        rcases List.mem_append.1 hmem with hm | hm
        · exact venv_not_mem_baseCommand t port hm
        · exact venv_not_mem_ini_extension fs t hm
    · intro hb
      rw [python_command_of_venv_present fs t port hb]
      exact ((List.suffix_append _ _).isInfix).trans
        ((List.prefix_append _ _).isInfix)
  · rfl

/-- Witness for C6 at a concrete filesystem on which every path exists. -/
theorem c6_venv_flag_iff_and_ordering_witness :
    ((["--venv", t0.get_homedir_subpath "www/python/venv"] <:+:
        (SubprocessCall.mk (PythonWebService.command fsAll t0 7)
          .inherited .inherited .inherited).argv ↔
      fsAll (t0.get_homedir_subpath "www/python/venv") = true) ∧
      (SubprocessCall.mk (PythonWebService.command fsAll t0 7)
        .inherited .inherited .inherited).argv =
        (PythonWebService.baseCommand t0 7 ++
          (if fsAll (t0.get_homedir_subpath "www/python/venv") then
            ["--venv", t0.get_homedir_subpath "www/python/venv"]
          else [])) ++
          (if fsAll (t0.get_homedir_subpath "www/python/uwsgi.ini") then
            ["--ini", t0.get_homedir_subpath "www/python/uwsgi.ini"]
          else [])) :=
  c6_venv_flag_iff_and_ordering fsAll t0 7
    (SubprocessCall.mk (PythonWebService.command fsAll t0 7)
      .inherited .inherited .inherited) rfl

/-- C10: for every integer port (no range or validity check), both commands
contain `"--http-socket"` immediately followed by `":" ++ toString port`. -/
theorem c10_http_socket_port_passthrough :
    ∀ (fs : FS) (t : Tool) (port : Int) (c : SubprocessCall),
      (PythonWebService.run fs t port = .ok c →
        ["--http-socket", ":" ++ toString port] <:+: c.argv) ∧
      (UwsgiWebService.run fs t port = .ok c →
        ["--http-socket", ":" ++ toString port] <:+: c.argv) := by
  intro fs t port c
  constructor
  · intro h
    rcases (python_run_ok_iff fs t port c).1 h with ⟨-, rfl⟩
    dsimp only
    have h1 : ["--http-socket", ":" ++ toString port] <:+:
        PythonWebService.baseCommand t port :=
      ⟨["/usr/bin/uwsgi", "--plugin", "python,python3"],
       ["--chdir", t.get_homedir_subpath "www/python/src",
        "--logto", t.get_homedir_subpath "uwsgi.log",
        "--callable", "app", "--manage-script-name", "--workers", "4",
        "--mount",
        "/" ++ t.name ++ "=" ++ t.get_homedir_subpath "www/python/src/app.py",
        "--die-on-term", "--strict", "--master"], rfl⟩
    exact h1.trans
      (((List.prefix_append _ _).trans (List.prefix_append _ _)).isInfix)
  · intro h
    rcases (uwsgi_run_ok_iff fs t port c).1 h with ⟨-, rfl⟩
    exact ⟨["/usr/bin/uwsgi"],
      ["--logto", t.get_homedir_subpath "uwsgi.log",
       "--ini", t.get_homedir_subpath "uwsgi.ini",
       "--workers", "4", "--die-on-term", "--strict", "--master"], rfl⟩

/-- Witness for C10 at the negative port `-42`. -/
theorem c10_http_socket_port_passthrough_witness :
    ["--http-socket", ":" ++ toString (-42 : Int)] <:+:
      (SubprocessCall.mk (PythonWebService.command fsAll t0 (-42))
        .inherited .inherited .inherited).argv ∧
    ["--http-socket", ":" ++ toString (-42 : Int)] <:+:
      (SubprocessCall.mk (UwsgiWebService.command t0 (-42))
        .inherited .inherited .inherited).argv :=
  ⟨(c10_http_socket_port_passthrough fsAll t0 (-42)
      (SubprocessCall.mk (PythonWebService.command fsAll t0 (-42))
        .inherited .inherited .inherited)).1 rfl,
   (c10_http_socket_port_passthrough fsAll t0 (-42)
      (SubprocessCall.mk (UwsgiWebService.command t0 (-42))
        .inherited .inherited .inherited)).2 rfl⟩

/-- C7: whenever a check raises, the error is the typed
`InvalidWebServiceException` and its message names the missing path
(`~/www/python/src` for Python, `~/uwsgi.ini` for uwsgi). -/
theorem c7_typed_error_names_missing_path :
    ∀ (fs : FS) (t : Tool) (α : Type) (w : α) (e : WebServiceError),
      (PythonWebService.check fs t w = .error e →
        ∃ m, e = .InvalidWebServiceException m ∧
          containsSubstring m "~/www/python/src") ∧
      (UwsgiWebService.check fs t w = .error e →
        ∃ m, e = .InvalidWebServiceException m ∧
          containsSubstring m "~/uwsgi.ini") := by
  intro fs t α w e
  constructor
  · intro h
    unfold PythonWebService.check at h
    dsimp only at h
    split at h
    · injection h with h2
      exact ⟨PythonWebService.checkMessage, h2.symm,
        "Could not find ",
        ". Are you sure you have a proper uwsgi application in ~/www/python/src?",
        by decide⟩
    · exact absurd h (by simp)
  · intro h
    unfold UwsgiWebService.check at h
    dsimp only at h
    split at h
    · injection h with h2
      exact ⟨UwsgiWebService.checkMessage, h2.symm,
        "Could not find ",
        ". Are you sure you have a proper uwsgi config setup in ~/uwsgi.ini?",
        by decide⟩
    · exact absurd h (by simp)

/-- Witness for C7 at the empty filesystem. -/
theorem c7_typed_error_names_missing_path_witness :
    (∃ m, WebServiceError.InvalidWebServiceException PythonWebService.checkMessage
        = .InvalidWebServiceException m ∧
        containsSubstring m "~/www/python/src") ∧
    (∃ m, WebServiceError.InvalidWebServiceException UwsgiWebService.checkMessage
        = .InvalidWebServiceException m ∧
        containsSubstring m "~/uwsgi.ini") :=
  ⟨(c7_typed_error_names_missing_path fsNone t0 Unit ()
      (.InvalidWebServiceException PythonWebService.checkMessage)).1 rfl,
   (c7_typed_error_names_missing_path fsNone t0 Unit ()
      (.InvalidWebServiceException UwsgiWebService.checkMessage)).2 rfl⟩
